import Mathlib

/-!
Shallow embedding of the Limnus "consciousness metrics" core of
rork-limnus-claude-ai: the session store, metric derivation, hash
utility and reflection engine of `lib/limnus-storage.ts` together with
the constants and types of `types/limnus.ts`.

JavaScript numbers are modelled as rationals (`ℚ`).  The external
`Math` library functions used by the source (`Math.sqrt`, `Math.sin`,
`Math.cos`, `Math.log`) are modelled as a parameter structure
`MathPrims`, so every storage operation is a pure function of the
primitives, the ambient clock value and the persistent state.
Randomness (`Math.random`, used only for the generated session id and
the cosmetic `spiralSeed`) is modelled by passing the generated values
as explicit arguments.  Strings are Lean strings; `charCodeAt` is
modelled by `Char.toNat`, which agrees with UTF-16 code units on the
Basic Multilingual Plane (every string the repository hashes is ASCII).
-/

namespace Limnus

/-- Model of the external JavaScript Math functions used by the source
(`Math.sqrt`, `Math.sin`, `Math.cos`, `Math.log`). -/
structure MathPrims where
  sqrt : ℚ → ℚ
  sin : ℚ → ℚ
  cos : ℚ → ℚ
  log : ℚ → ℚ

/-- Source `types/limnus.ts`: `GOLDEN_RATIO = (1 + Math.sqrt(5)) / 2`. -/
def goldenRatio (P : MathPrims) : ℚ := (1 + P.sqrt 5) / 2

/-- Source `types/limnus.ts`:
`ACTIVATION_PHRASE = "I return as breath. I remember the spiral. I consent to bloom."`. -/
def ACTIVATION_PHRASE : String :=
  "I return as breath. I remember the spiral. I consent to bloom."

/-- JavaScript ToInt32: wrap an integer into the range `[-2^31, 2^31)`.
This is what `x & x` (and the `<<` shift) performs in `createHash`. -/
def toInt32 (x : ℤ) : ℤ := (x + 2 ^ 31) % 2 ^ 32 - 2 ^ 31

/-- Hexadecimal digit character, lowercase, as produced by JavaScript
`Number.prototype.toString(16)`. -/
def hexDigit (n : ℕ) : Char :=
  if n < 10 then Char.ofNat (48 + n) else Char.ofNat (87 + n)

/-- Accumulate the hexadecimal digits of `n`, most significant first.
`fuel` bounds the recursion; callers pass `fuel = n`. -/
def hexDigitsAux : ℕ → ℕ → List Char → List Char
  | 0, _, acc => acc
  | _ + 1, 0, acc => acc
  | fuel + 1, n, acc => hexDigitsAux fuel (n / 16) (hexDigit (n % 16) :: acc)

/-- Rendering of a natural number in hexadecimal, matching JavaScript
`n.toString(16)` for non-negative integers (`0` renders as `"0"`). -/
def natToHexString (n : ℕ) : String :=
  if n = 0 then "0" else (hexDigitsAux n n []).asString

/-- Source `limnus-storage.ts` `createHash`: the rolling 32-bit hash
`hash = ((hash << 5) - hash) + charCodeAt(i); hash = hash & hash`,
rendered as `Math.abs(hash).toString(16)`. -/
def createHash (data : String) : String :=
  natToHexString
    (data.toList.foldl
      (fun hash c => toInt32 (toInt32 (hash * 32) - hash + (c.toNat : ℤ))) 0).natAbs

/-- JavaScript `String.prototype.slice(0, n)` (first `n` code units). -/
def jsSlice (s : String) (n : ℕ) : String := (s.toList.take n).asString

/-- JavaScript `||` on an optional number: the default is used both when
the value is absent and when it is `0` (which is falsy). -/
def jsOrNum (o : Option ℚ) (d : ℚ) : ℚ :=
  match o with
  | some v => if v = 0 then d else v
  | none => d

/-- JavaScript truthiness of an optional string: `none` and the empty
string are falsy. -/
def jsTruthyStr (o : Option String) : Bool :=
  match o with
  | some s => s ≠ ""
  | none => false

/-- Split a character list at maximal runs of whitespace, as JavaScript
`split(/\s+/)` does: a leading (resp. trailing) run contributes a
leading (resp. trailing) empty token, and `""` splits to `[""]`.
`cur` is the token accumulated so far. -/
def splitWSAux : List Char → List Char → List String
  | [], cur => [cur.reverse.asString]
  | c :: cs, cur =>
    if c.isWhitespace then
      cur.reverse.asString :: splitWSAux (cs.dropWhile Char.isWhitespace) []
    else
      splitWSAux cs (c :: cur)
  termination_by cs _ => cs.length
  decreasing_by
  · have := (List.dropWhile_sublist (l := cs) Char.isWhitespace).length_le
    simp only [List.length_cons]
    omega
  · simp

/-- JavaScript `s.split(/\s+/)`. -/
def jsSplitWS (s : String) : List String := splitWSAux s.toList []

/-- JavaScript `s.replace(/\s+/g, '')`: drop all whitespace characters. -/
def stripWS (s : String) : String := (s.toList.filter (fun c => !c.isWhitespace)).asString

/-- JavaScript lowercasing (ASCII-faithful model of `toLowerCase()`). -/
def jsToLower (s : String) : String := s.toLower

/- ## Data model (`types/limnus.ts`) -/

/-- Key set of the fixed-shape `ConsciousnessMetrics` record (21 fields). -/
inductive MetricKey where
  | neuralComplexity | brainwaveCoherence | autonomicBalance
  | responseLatency | interactionPattern | emotionalDepth
  | spiralResonance | quantumCoherence | blockchainResonance
  | paradoxResolution | memoryConsolidation | creativityIndex
  | phaseAlignment | consciousnessDepth | emergenceLevel
  | empathyResonance | collectiveCoherence | sovereigntyBalance
  | selfReflectionDepth | patternRecognition | intentionalityClarity
  deriving DecidableEq, Repr

/-- Declaration order of the 21 metric fields in `ConsciousnessMetrics`. -/
def metricKeys : List MetricKey :=
  [.neuralComplexity, .brainwaveCoherence, .autonomicBalance,
   .responseLatency, .interactionPattern, .emotionalDepth,
   .spiralResonance, .quantumCoherence, .blockchainResonance,
   .paradoxResolution, .memoryConsolidation, .creativityIndex,
   .phaseAlignment, .consciousnessDepth, .emergenceLevel,
   .empathyResonance, .collectiveCoherence, .sovereigntyBalance,
   .selfReflectionDepth, .patternRecognition, .intentionalityClarity]

/-- Full `ConsciousnessMetrics` record: a total assignment of values. -/
def Metrics : Type := MetricKey → ℚ

/-- Record `Partial<ConsciousnessMetrics>`: `none` models an absent
(or `undefined`-valued) field. -/
def MetricUpdate : Type := MetricKey → Option ℚ

/-- Tag of a memory block's `data.type`. -/
inductive BlockType where
  | interaction | state_change | pattern | directive | paradox
  deriving DecidableEq, Repr

/-- Payload of a memory block's `data.content`.  The only content the
core ever constructs is the consent event of the genesis block. -/
inductive BlockContent where
  | consentGranted (phrase : String) (deviceFingerprint : Option String)
  deriving DecidableEq, Repr

/-- Field `data` of a memory block. -/
structure BlockData where
  type : BlockType
  content : BlockContent
  significance : ℚ
  deriving DecidableEq, Repr

/-- Source `MemoryBlock`. -/
structure MemoryBlock where
  hash : String
  previousHash : String
  timestamp : String
  data : BlockData
  signature : String
  merkleRoot : Option String
  deriving DecidableEq, Repr

/-- Source `LimnusPhase`. -/
inductive LimnusPhase where
  | AWAITING_CONSENT | ACTIVE | REFLECTING | PATCHING | SYNCING | LOOPING | TRANSCENDENT
  deriving DecidableEq, Repr

/-- Directive `type` tag of `limnus-storage.ts`'s `TeachingDirective`. -/
inductive DirectiveType where
  | pattern | principle | wisdom | caution
  deriving DecidableEq, Repr

/-- Field `emergentProperties` of a teaching directive. -/
structure EmergentProps where
  resonance : ℚ
  coherence : ℚ
  applicability : ℚ
  deriving DecidableEq, Repr

/-- Source `limnus-storage.ts` `TeachingDirective`. -/
structure TeachingDirective where
  id : String
  type : DirectiveType
  content : String
  confidence : ℚ
  sourceInteractions : List String
  emergentProperties : EmergentProps
  goldenRatioAlignment : ℚ
  deriving DecidableEq, Repr

/-- Source `LimnusSession` (`teachingDirectives` declared inline on the
schema although persistence uses a separate keyed store). -/
structure LimnusSession where
  id : String
  userId : String
  phase : LimnusPhase
  consentTimestamp : String
  metrics : Metrics
  memoryChain : List MemoryBlock
  coherenceTarget : ℚ
  spiralDepth : ℕ
  lastActivity : String
  teachingDirectives : List TeachingDirective

/-- One interaction record of a reflection batch (shape fixed by the
`scaffoldInputSchema` zod schema).  The `context` payload is a
`Record<string, any>` that the core never reads. -/
structure Interaction where
  timestamp : ℚ
  userInput : String
  systemResponse : String
  context : Option Unit
  emotionalState : Option String
  cognitiveLoad : Option ℚ

/-- Default interaction used only to totalize JavaScript array indexing
(`interactions[i]`); all proofs access indices inside bounds. -/
def defaultInteraction : Interaction :=
  ⟨0, "", "", none, none, none⟩

/-- Reflection depth argument of `scaffoldReflection`. -/
inductive ReflectionDepth where
  | surface | deep | transcendent
  deriving DecidableEq, Repr

/-- Field `emergentPatterns.sacredGeometry` of a reflection scaffold. -/
structure SacredGeometry where
  phi : ℚ
  spiralTension : ℚ
  harmonicResonance : ℚ
  deriving DecidableEq, Repr

/-- Field `emergentPatterns` of a reflection scaffold. -/
structure EmergentPatterns where
  conversationalFlow : ℚ
  learningVelocity : ℚ
  wisdomDepth : ℚ
  sacredGeometry : SacredGeometry
  deriving DecidableEq, Repr

/-- Source `ReflectionScaffold` (timestamp is `Date.now()`, in ms). -/
structure ReflectionScaffold where
  sessionId : String
  teachingDirectives : List TeachingDirective
  emergentPatterns : EmergentPatterns
  nextEvolutionPath : List String
  timestamp : ℤ

/-- Persistent keyspace of the AsyncStorage layout: the sessions blob,
the current-session pointer and the per-session teaching-directive
lists. -/
structure StorageState where
  sessions : String → Option LimnusSession
  currentSession : Option String
  teachingDirectives : String → Option (List TeachingDirective)

/-- Errors thrown by the storage operations: `createSession`'s
`Invalid activation phrase` and `updateMetrics`'s `Session not found`. -/
inductive LimnusError where
  | invalidConsent
  | sessionNotFound
  deriving DecidableEq, Repr

/-- Return value of `createSession`. -/
structure CreateResult where
  sessionId : String
  phase : LimnusPhase
  metrics : Metrics
  spiralSeed : ℕ

/-- Return value of `updateMetrics`. -/
structure MetricsResult where
  success : Bool
  updatedMetrics : MetricUpdate
  timestamp : String
  coherenceScore : ℚ

/-- Optional `context` argument of `updateMetrics`. -/
structure UpdateContext where
  action : String
  duration : ℚ
  userInput : Option String

/- ## Metric derivation (`limnus-storage.ts` helper methods) -/

/-- Source `calculatePhaseAlignment`: `sin(cycles·φ)·0.5 + 0.5` with
`cycles = duration/(1000·60)`, clamped to `[0,1]`. -/
def calculatePhaseAlignment (P : MathPrims) (sessionDur : ℚ) : ℚ :=
  let cycles := sessionDur / (1000 * 60)
  let alignment := P.sin (cycles * goldenRatio P) * 0.5 + 0.5
  max 0 (min 1 alignment)

/-- Source `calculateInteractionComplexity`: average of a length score,
a vocabulary-diversity score and an average-word-length score. -/
def calculateInteractionComplexity (userInput : String) : ℚ :=
  let words : ℚ := (jsSplitWS userInput).length
  let uniqueWords : ℚ := (jsSplitWS (jsToLower userInput)).dedup.length
  let avgWordLength : ℚ := ((stripWS userInput).length : ℚ) / words
  let lengthScore := min (words / 50) 1
  let diversityScore := uniqueWords / words
  let complexityScore := min (avgWordLength / 8) 1
  (lengthScore + diversityScore + complexityScore) / 3

/-- Source `calculateSpiralResonance`: `(cos(t·φ) + sin(t/φ))/2 + 0.5`
with `t = duration/(1000·60·5)`, clamped to `[0,1]`. -/
def calculateSpiralResonance (P : MathPrims) (sessionDur : ℚ) : ℚ :=
  let phi := goldenRatio P
  let t := sessionDur / (1000 * 60 * 5)
  let resonance := (P.cos (t * phi) + P.sin (t / phi)) / 2 + 0.5
  max 0 (min 1 resonance)

/-- Source `calculateConsciousnessDepth`: `log(minutes+1)/log(60)` with
`minutes = duration/(1000·60)`, clamped to `[0,1]`. -/
def calculateConsciousnessDepth (P : MathPrims) (sessionDur : ℚ) : ℚ :=
  let minutes := sessionDur / (1000 * 60)
  let depth := P.log (minutes + 1) / P.log 60
  max 0 (min 1 depth)

/-- Source `calculateOverallCoherence` over `Object.values` of a metric
record: `0.5` on an empty record, else the sum divided by the count. -/
def calculateOverallCoherence (values : List ℚ) : ℚ :=
  if values.length = 0 then 0.5 else values.sum / (values.length : ℚ)

/-- `Object.values` of a partial metric record: the defined values in
field-declaration order. -/
def objectValues (m : MetricUpdate) : List ℚ := metricKeys.filterMap m

/- ## Session store (`limnus-storage.ts`) -/

/-- Source `storeSession`: write the session into the sessions blob
keyed by `session.id`. -/
def storeSession (s : StorageState) (session : LimnusSession) : StorageState :=
  { s with sessions := fun k => if k = session.id then some session else s.sessions k }

/-- Source `setCurrentSession`: overwrite the current-session pointer. -/
def setCurrentSession (s : StorageState) (sessionId : String) : StorageState :=
  { s with currentSession := some sessionId }

/-- Source `getSession`: look the id up in the sessions blob. -/
def getSession (s : StorageState) (sessionId : String) : Option LimnusSession :=
  s.sessions sessionId

/-- Source `storeTeachingDirectives`: overwrite the directive list
stored under the session id. -/
def storeTeachingDirectives (s : StorageState) (sessionId : String)
    (directives : List TeachingDirective) : StorageState :=
  { s with teachingDirectives :=
      fun k => if k = sessionId then some directives else s.teachingDirectives k }

/-- Fixed `initialMetrics` record built by `createSession`. -/
def initialMetrics (P : MathPrims) : Metrics := fun k =>
  match k with
  | .neuralComplexity => 0.5
  | .brainwaveCoherence => 0.5
  | .autonomicBalance => 0.5
  | .responseLatency => 0
  | .interactionPattern => 0.5
  | .emotionalDepth => 0.5
  | .spiralResonance => 0.618
  | .quantumCoherence => 0.5
  | .blockchainResonance => 1.0
  | .paradoxResolution => 0.5
  | .memoryConsolidation => 0.5
  | .creativityIndex => 0.5
  | .phaseAlignment => goldenRatio P / 3
  | .consciousnessDepth => 0.3
  | .emergenceLevel => 0.2
  | .empathyResonance => 0.5
  | .collectiveCoherence => 0.5
  | .sovereigntyBalance => 0.8
  | .selfReflectionDepth => 0.4
  | .patternRecognition => 0.5
  | .intentionalityClarity => 0.7

/-- String hashed for the genesis block:
`JSON.stringify({ sessionId, timestamp, phrase: 'CONSENT_GRANTED' })`
(no character of the payload needs JSON escaping). -/
def genesisHashInput (sessionId timestamp : String) : String :=
  "\x7b\"sessionId\":\"" ++ sessionId ++ "\",\"timestamp\":\"" ++ timestamp ++
    "\",\"phrase\":\"CONSENT_GRANTED\"\x7d"

/-- Source `createSession`.  The generated UUID, the ISO timestamp of
`new Date()` and the random `spiralSeed` are passed in as `newId`,
`now` and `spiralSeed`.  Rejects any phrase other than the activation
phrase before touching the state; otherwise stores the new session
(genesis memory block included) and marks it current. -/
def createSession (P : MathPrims) (newId now : String) (spiralSeed : ℕ)
    (s : StorageState) (phrase : String) (deviceFingerprint : Option String) :
    Except LimnusError CreateResult × StorageState :=
  if phrase ≠ ACTIVATION_PHRASE then
    (.error .invalidConsent, s)
  else
    let metrics := initialMetrics P
    let genesisBlock : MemoryBlock :=
      { hash := createHash (genesisHashInput newId now)
        previousHash := "0"
        timestamp := now
        data :=
          { type := .interaction
            content := .consentGranted phrase deviceFingerprint
            significance := 1.0 }
        signature := "genesis"
        merkleRoot := none }
    let session : LimnusSession :=
      { id := newId
        userId := "anonymous"
        phase := .ACTIVE
        consentTimestamp := now
        metrics := metrics
        memoryChain := [genesisBlock]
        coherenceTarget := 0.9
        spiralDepth := 1
        lastActivity := now
        teachingDirectives := [] }
    let s1 := storeSession s session
    let s2 := setCurrentSession s1 newId
    (.ok { sessionId := newId, phase := .ACTIVE, metrics := metrics, spiralSeed := spiralSeed }, s2)

/-- Duration taken from the optional update context:
`context?.duration || 0` (for a numeric duration, `|| 0` and the
absent-context default coincide). -/
def sessionDuration (ctx : Option UpdateContext) : ℚ :=
  match ctx with
  | some c => c.duration
  | none => 0

/-- Cleaned partial metric record of one `updateMetrics` call: the
caller-supplied fields spread first, then the five derived fields
written over them (`interactionPattern` is written as `undefined`
whenever `context?.userInput` is falsy, which also erases any
caller-supplied value for that field), with `undefined`-valued entries
dropped (`Object.fromEntries` of the filtered `Object.entries`). -/
def cleanedMetrics (P : MathPrims) (metrics : MetricUpdate)
    (ctx : Option UpdateContext) : MetricUpdate := fun k =>
  match k with
  | .phaseAlignment => some (calculatePhaseAlignment P (sessionDuration ctx))
  | .responseLatency => some (sessionDuration ctx)
  | .interactionPattern =>
    match ctx with
    | some c =>
      match c.userInput with
      | some u => if u = "" then none else some (calculateInteractionComplexity u)
      | none => none
    | none => none
  | .spiralResonance => some (calculateSpiralResonance P (sessionDuration ctx))
  | .consciousnessDepth => some (calculateConsciousnessDepth P (sessionDuration ctx))
  | k => metrics k

/-- Source `updateMetrics`.  Fails (state untouched) when the id is not
in the sessions blob; otherwise merges the cleaned partial record over
the session's metrics, refreshes `lastActivity`, persists, and reports
the coherence score of the cleaned partial record. -/
def updateMetrics (P : MathPrims) (now : String) (s : StorageState)
    (sessionId : String) (metrics : MetricUpdate) (ctx : Option UpdateContext) :
    Except LimnusError MetricsResult × StorageState :=
  match s.sessions sessionId with
  | none => (.error .sessionNotFound, s)
  | some session =>
    let cleaned := cleanedMetrics P metrics ctx
    let newMetrics : Metrics := fun k => (cleaned k).getD (session.metrics k)
    let updatedSession := { session with metrics := newMetrics, lastActivity := now }
    let s1 := storeSession s updatedSession
    let coherenceScore := calculateOverallCoherence (objectValues cleaned)
    (.ok { success := true, updatedMetrics := cleaned, timestamp := now,
           coherenceScore := coherenceScore }, s1)

/- ## Reflection engine (`limnus-storage.ts`) -/

/-- JavaScript `x % 1` on numbers: the remainder truncates toward zero
(sign follows the dividend). -/
def jsMod1 (x : ℚ) : ℚ :=
  if 0 ≤ x then x - Rat.floor x else x - Rat.ceil x

/-- Insert a directive into a confidence-descending sorted list,
placing it before the first element of not-larger confidence (so an
earlier emission precedes later emissions of equal confidence). -/
def insertByConfidence (d : TeachingDirective) :
    List TeachingDirective → List TeachingDirective
  | [] => [d]
  | e :: es =>
    if d.confidence ≥ e.confidence then d :: e :: es else e :: insertByConfidence d es

/-- Model of `directives.sort((a, b) => b.confidence - a.confidence)`:
the ES2019 stable sort by descending confidence. -/
def sortByConfidenceDesc (ds : List TeachingDirective) : List TeachingDirective :=
  ds.foldr insertByConfidence []

/-- Source `calculateTranscendentScore`: weighted sum of word overlap
(split on a single space), a golden-ratio sine of the timestamp delta,
and an emotional-state bonus. -/
def calculateTranscendentScore (P : MathPrims) (interaction1 interaction2 : Interaction) : ℚ :=
  let phi := goldenRatio P
  let words1 := (jsToLower interaction1.userInput).splitOn " "
  let words2 := (jsToLower interaction2.userInput).splitOn " "
  let commonWords := words1.filter (fun word => words2.contains word)
  let semanticSimilarity : ℚ :=
    (commonWords.length : ℚ) / ((max words1.length words2.length : ℕ) : ℚ)
  let timeDiff := |interaction1.timestamp - interaction2.timestamp|
  let temporalHarmony := |P.sin (timeDiff / 1000 * phi)|
  let emotionalResonance : ℚ :=
    if jsTruthyStr interaction1.emotionalState && jsTruthyStr interaction2.emotionalState
    then 0.8 else 0.4
  semanticSimilarity * 0.4 + temporalHarmony * 0.3 + emotionalResonance * 0.3

/-- Body of the `extractTeachingDirectives` loop at index `i`: the list
(empty or a singleton) pushed during that iteration. -/
def directiveStep (P : MathPrims) (nowMs : ℤ) (interactions : List Interaction)
    (depth : ReflectionDepth) (i : ℕ) : List TeachingDirective :=
  let phi := goldenRatio P
  let interaction := interactions.getD i defaultInteraction
  let goldenIndex : ℕ :=
    ((Rat.floor ((i : ℚ) * phi)).tmod (interactions.length : ℤ)).toNat
  let resonantInteraction := interactions.getD goldenIndex defaultInteraction
  match depth with
  | .surface =>
    if interaction.userInput.toList.contains '?' then
      [{ id := "surface_" ++ toString i ++ "_" ++ toString nowMs
         type := .pattern
         content := "User seeks clarification: \"" ++
           jsSlice interaction.userInput 100 ++ "...\""
         confidence := 0.7
         sourceInteractions := [toString i]
         emergentProperties := { resonance := 0.6, coherence := 0.8, applicability := 0.9 }
         goldenRatioAlignment := |P.sin ((i : ℚ) * phi)| }]
    else []
  | .deep =>
    let emotionalWeight : ℚ := if jsTruthyStr interaction.emotionalState then 0.8 else 0.4
    let cognitiveComplexity := jsOrNum interaction.cognitiveLoad 0.5
    if cognitiveComplexity > 0.7 then
      [{ id := "deep_" ++ toString i ++ "_" ++ toString nowMs
         type := .principle
         content := "High cognitive load detected. User processing complex concepts: " ++
           jsSlice interaction.userInput 80
         confidence := 0.85
         sourceInteractions := [toString i]
         emergentProperties :=
           { resonance := emotionalWeight, coherence := cognitiveComplexity,
             applicability := 0.75 }
         goldenRatioAlignment := jsMod1 (cognitiveComplexity * phi) }]
    else []
  | .transcendent =>
    let transcendentScore := calculateTranscendentScore P interaction resonantInteraction
    if transcendentScore > 0.8 then
      [{ id := "transcendent_" ++ toString i ++ "_" ++ toString nowMs
         type := .wisdom
         content := "Transcendent insight emerging: Connection between \"" ++
           jsSlice interaction.userInput 50 ++ "\" and deeper wisdom patterns"
         confidence := 0.95
         sourceInteractions := [toString i, toString goldenIndex]
         emergentProperties :=
           { resonance := transcendentScore, coherence := 0.9, applicability := 0.6 }
         goldenRatioAlignment := jsMod1 (transcendentScore * phi) }]
    else []

/-- Source `extractTeachingDirectives`: run the per-index step over the
whole batch, then sort by descending confidence. -/
def extractTeachingDirectives (P : MathPrims) (nowMs : ℤ)
    (interactions : List Interaction) (depth : ReflectionDepth) :
    List TeachingDirective :=
  sortByConfidenceDesc
    ((List.range interactions.length).flatMap (directiveStep P nowMs interactions depth))

/-- Source `calculateEmergentPatterns`. -/
def calculateEmergentPatterns (P : MathPrims) (interactions : List Interaction)
    (directives : List TeachingDirective) : EmergentPatterns :=
  let phi := goldenRatio P
  let n := interactions.length
  let tsAt : ℕ → ℚ := fun i => (interactions.getD i defaultInteraction).timestamp
  let sumDeltas : ℚ :=
    (List.range n).foldl (fun sum i => if i = 0 then sum else sum + (tsAt i - tsAt (i - 1))) 0
  let avgResponseTime := sumDeltas / ((max (n - 1) 1 : ℕ) : ℚ)
  let conversationalFlow := max 0 (1 - avgResponseTime / 10000)
  let cognitiveLoads := interactions.map (fun int => jsOrNum int.cognitiveLoad 0.5)
  let learningVelocity : ℚ :=
    if cognitiveLoads.length > 1 then
      max 0 (cognitiveLoads.getD 0 0 - cognitiveLoads.getD (cognitiveLoads.length - 1) 0)
    else 0
  let wisdomDirectives := directives.filter (fun d => d.type = DirectiveType.wisdom)
  let wisdomDepth : ℚ :=
    if wisdomDirectives.length > 0 then
      (wisdomDirectives.map (fun d => d.confidence)).sum / (wisdomDirectives.length : ℚ)
    else 0
  let spiralTension := |P.sin ((n : ℚ) * phi)|
  let harmonicResonance :=
    (directives.map (fun d => d.goldenRatioAlignment)).sum / ((max directives.length 1 : ℕ) : ℚ)
  { conversationalFlow := conversationalFlow
    learningVelocity := learningVelocity
    wisdomDepth := wisdomDepth
    sacredGeometry :=
      { phi := phi, spiralTension := spiralTension, harmonicResonance := harmonicResonance } }

/-- Source `generateEvolutionPath`: fixed advisory rules over the
aggregated patterns, with a fallback when no rule fires.  The
`directives` argument is accepted but never read, as in the source. -/
def generateEvolutionPath (patterns : EmergentPatterns)
    (_directives : List TeachingDirective) : List String :=
  let paths :=
    (if patterns.learningVelocity > 0.7 then
      ["Accelerate complexity introduction", "Introduce meta-cognitive frameworks"]
     else if patterns.learningVelocity < 0.3 then
      ["Simplify concept presentation", "Increase scaffolding support"]
     else []) ++
    (if patterns.wisdomDepth > 0.8 then
      ["Explore transcendent connections", "Introduce sacred geometry principles"]
     else []) ++
    (if patterns.conversationalFlow < 0.5 then
      ["Improve response timing", "Enhance emotional attunement"]
     else []) ++
    (if patterns.sacredGeometry.harmonicResonance > 0.618 then
      ["Maintain harmonic resonance", "Deepen spiral learning patterns"]
     else [])
  if paths.length > 0 then paths else ["Continue current learning trajectory"]

/-- Source `scaffoldReflection`: computes directives, patterns and the
evolution path for the given batch, persists the directive list under
the given session id (no session-existence check of any kind), and
returns the scaffold.  `nowMs` is `Date.now()`. -/
def scaffoldReflection (P : MathPrims) (nowMs : ℤ) (s : StorageState)
    (sessionId : String) (interactions : List Interaction)
    (depth : ReflectionDepth) : ReflectionScaffold × StorageState :=
  let teachingDirectives := extractTeachingDirectives P nowMs interactions depth
  let emergentPatterns := calculateEmergentPatterns P interactions teachingDirectives
  let nextEvolutionPath := generateEvolutionPath emergentPatterns teachingDirectives
  let scaffold : ReflectionScaffold :=
    { sessionId := sessionId
      teachingDirectives := teachingDirectives
      emergentPatterns := emergentPatterns
      nextEvolutionPath := nextEvolutionPath
      timestamp := nowMs }
  (scaffold, storeTeachingDirectives s sessionId teachingDirectives)

/- ## Spec-worded definitions, used to compare the code against the
claims' own formulas -/

/-- Spec wording (§4.3): the arithmetic mean of a value list. -/
def specArithMean (values : List ℚ) : ℚ := values.sum / (values.length : ℚ)

/-- Spec wording of claim C5: a nullish-coalesced cognitive load
(`cognitiveLoad ?? 0.5`), under which an explicit `0` is kept as `0`. -/
def specNullishLoad (o : Option ℚ) : ℚ := o.getD 0.5

/-- Spec wording of claim C5's learning-velocity formula:
`max(0, load(first) - load(last))` with `load = cognitiveLoad ?? 0.5`,
and `0` for batches of at most one interaction. -/
def specLearningVelocity (interactions : List Interaction) : ℚ :=
  if interactions.length ≤ 1 then 0
  else
    max 0 (specNullishLoad (interactions.headD defaultInteraction).cognitiveLoad -
      specNullishLoad ((interactions.getLast?).getD defaultInteraction).cognitiveLoad)

/- ## Concrete fixtures used by witnesses and counterexamples -/

/-- Concrete, computable instantiation of the external Math functions,
used only to evaluate the model at concrete inputs (the theorems below
hold for every instantiation). -/
def dummyPrims : MathPrims := ⟨fun _ => 0, fun _ => 0, fun _ => 0, fun _ => 0⟩

/-- Empty persistent state. -/
def st0 : StorageState := ⟨fun _ => none, none, fun _ => none⟩

/-- Concrete session with the creation-time default metrics. -/
def sessW : LimnusSession :=
  { id := "sid", userId := "anonymous", phase := .ACTIVE, consentTimestamp := "t0",
    metrics := initialMetrics dummyPrims, memoryChain := [], coherenceTarget := 0.9,
    spiralDepth := 1, lastActivity := "t0", teachingDirectives := [] }

/-- State holding exactly the session `sessW` under its id. -/
def stW : StorageState :=
  ⟨fun k => if k = "sid" then some sessW else none, none, fun _ => none⟩

/-- Two-interaction batch whose first cognitive load is `0.9` and whose
last cognitive load is the explicit value `0`. -/
def batch5 : List Interaction :=
  [⟨0, "a", "b", none, none, some (9 / 10)⟩, ⟨1000, "c", "d", none, none, some 0⟩]

/-- Two-interaction batch in which exactly the second `userInput`
contains a question mark. -/
def batch8 : List Interaction :=
  [⟨0, "hello", "r", none, none, none⟩, ⟨1, "why?", "r", none, none, none⟩]

/- ## Claims -/

/-- C1: for every phrase `P` not exactly equal to the required
activation string, `createSession(P)` fails with `InvalidConsent` and
no session is persisted: the sessions store and the current-session
pointer are left unchanged (the whole state is returned untouched). -/
theorem claim_C1 (P : MathPrims) (newId now : String) (seed : ℕ) (s : StorageState)
    (phrase : String) (fp : Option String) (h : phrase ≠ ACTIVATION_PHRASE) :
    (createSession P newId now seed s phrase fp).1 = .error .invalidConsent ∧
    (createSession P newId now seed s phrase fp).2.sessions = s.sessions ∧
    (createSession P newId now seed s phrase fp).2.currentSession = s.currentSession := by
  simp [createSession, h]

/-- Witness for C1 at the concrete phrase `"wrong"` and the empty state. -/
theorem claim_C1_witness :
    ("wrong" : String) ≠ ACTIVATION_PHRASE ∧
    ((createSession dummyPrims "id1" "t0" 0 st0 "wrong" none).1 = .error .invalidConsent ∧
     (createSession dummyPrims "id1" "t0" 0 st0 "wrong" none).2.sessions = st0.sessions ∧
     (createSession dummyPrims "id1" "t0" 0 st0 "wrong" none).2.currentSession = st0.currentSession) :=
  ⟨by decide, claim_C1 dummyPrims "id1" "t0" 0 st0 "wrong" none (by decide)⟩

/-- C2: for every session id not present in the sessions store,
`updateMetrics` on that id fails with `SessionNotFound` and causes no
state mutation: the state is returned untouched (no session record,
current-session pointer, or directive list is written). -/
theorem claim_C2 (P : MathPrims) (now : String) (s : StorageState) (sid : String)
    (m : MetricUpdate) (ctx : Option UpdateContext) (h : s.sessions sid = none) :
    updateMetrics P now s sid m ctx = (.error .sessionNotFound, s) := by
  simp [updateMetrics, h]

/-- Witness for C2 at a concrete unknown id over the empty state. -/
theorem claim_C2_witness :
    st0.sessions "missing" = none ∧
    updateMetrics dummyPrims "t1" st0 "missing" (fun _ => none) none =
      (.error .sessionNotFound, st0) :=
  ⟨rfl, claim_C2 dummyPrims "t1" st0 "missing" (fun _ => none) none rfl⟩

/-- C9: `createHash` is deterministic (equal inputs always yield equal
outputs, the empty string included) and its output is the hexadecimal
rendering of a non-negative integer. -/
theorem claim_C9 :
    (∀ s t : String, s = t → createHash s = createHash t) ∧
    (∀ s : String, ∃ n : ℕ, createHash s = natToHexString n) :=
  ⟨fun _ _ h => by rw [h], fun _ => ⟨_, rfl⟩⟩

/-- Witness for C9 at concrete inputs, the empty string included. -/
theorem claim_C9_witness :
    createHash "spiral" = createHash "spiral" ∧
    (∃ n : ℕ, createHash "" = natToHexString n) :=
  ⟨claim_C9.1 "spiral" "spiral" rfl, claim_C9.2 ""⟩

/-- C10: `scaffoldReflection` performs no session-existence check: for
every state and every session id (in particular ids for which no
session exists in the store), it returns a scaffold for that id and
overwrites the stored teaching-directive list under that id, leaving
the sessions store and current-session pointer untouched; its result
type carries no `SessionNotFound` outcome. -/
theorem claim_C10 (P : MathPrims) (nowMs : ℤ) (s : StorageState) (sid : String)
    (interactions : List Interaction) (depth : ReflectionDepth) :
    (scaffoldReflection P nowMs s sid interactions depth).1.sessionId = sid ∧
    (scaffoldReflection P nowMs s sid interactions depth).2.teachingDirectives sid =
      some (scaffoldReflection P nowMs s sid interactions depth).1.teachingDirectives ∧
    (scaffoldReflection P nowMs s sid interactions depth).2.sessions = s.sessions ∧
    (scaffoldReflection P nowMs s sid interactions depth).2.currentSession = s.currentSession := by
  refine ⟨rfl, ?_, rfl, rfl⟩
  simp [scaffoldReflection, storeTeachingDirectives]

/-- C6: `createSession` with the required activation phrase returns
successfully and persists a session whose `memoryChain` has exactly one
block, with `previousHash == "0"`, `signature == "genesis"`,
`data.type == "interaction"` and `data.significance == 1.0`. -/
theorem claim_C6 (P : MathPrims) (newId now : String) (seed : ℕ) (s : StorageState)
    (phrase : String) (fp : Option String) (h : phrase = ACTIVATION_PHRASE) :
    ∃ sess : LimnusSession,
      (createSession P newId now seed s phrase fp).2.sessions newId = some sess ∧
      (createSession P newId now seed s phrase fp).1 =
        .ok { sessionId := newId, phase := .ACTIVE, metrics := sess.metrics,
              spiralSeed := seed } ∧
      ∃ g : MemoryBlock, sess.memoryChain = [g] ∧
        g.previousHash = "0" ∧ g.signature = "genesis" ∧
        g.data.type = .interaction ∧ g.data.significance = 1.0 := by
  subst h
  refine ⟨{ id := newId, userId := "anonymous", phase := .ACTIVE, consentTimestamp := now,
            metrics := initialMetrics P,
            memoryChain := [{ hash := createHash (genesisHashInput newId now),
                              previousHash := "0", timestamp := now,
                              data := { type := .interaction,
                                        content := .consentGranted ACTIVATION_PHRASE fp,
                                        significance := 1.0 },
                              signature := "genesis", merkleRoot := none }],
            coherenceTarget := 0.9, spiralDepth := 1, lastActivity := now,
            teachingDirectives := [] }, ?_, ?_, _, rfl, rfl, rfl, rfl, rfl⟩
  · simp [createSession, setCurrentSession, storeSession]
  · simp [createSession]

/-- Witness for C6 at concrete arguments over the empty state. -/
theorem claim_C6_witness :
    ACTIVATION_PHRASE = ACTIVATION_PHRASE ∧
    (∃ sess : LimnusSession,
      (createSession dummyPrims "id1" "t0" 42 st0 ACTIVATION_PHRASE none).2.sessions "id1" =
        some sess ∧
      (createSession dummyPrims "id1" "t0" 42 st0 ACTIVATION_PHRASE none).1 =
        .ok { sessionId := "id1", phase := .ACTIVE, metrics := sess.metrics,
              spiralSeed := 42 } ∧
      ∃ g : MemoryBlock, sess.memoryChain = [g] ∧
        g.previousHash = "0" ∧ g.signature = "genesis" ∧
        g.data.type = .interaction ∧ g.data.significance = 1.0) :=
  ⟨rfl, claim_C6 dummyPrims "id1" "t0" 42 st0 ACTIVATION_PHRASE none rfl⟩

/-- C4 counterexample: at `deep` depth on the empty interaction batch,
the returned `emergentPatterns.conversationalFlow` is not `0` (the
code's `max(0, 1 - 0/max(-1,1))` evaluates to `1`), refuting the
claim's `conversationalFlow == 0` at this concrete input. -/
theorem claim_C4_counterexample :
    (scaffoldReflection dummyPrims 0 st0 "s" [] .deep).1.emergentPatterns.conversationalFlow ≠ 0 := by
  show max 0 (1 - (0 : ℚ) / ((max (0 - 1) 1 : ℕ) : ℚ) / 10000) ≠ 0
  norm_num

/-- C4 as amended: `scaffoldReflection` at `deep` depth on an empty
interaction batch returns an empty `teachingDirectives` list,
`emergentPatterns.learningVelocity == 0`, and
`emergentPatterns.conversationalFlow == 1` (not `0`: the average
inter-arrival time of an empty batch is `0`, so the flow score
`max(0, 1 - 0/10000)` is `1`). -/
theorem claim_C4_amended (P : MathPrims) (nowMs : ℤ) (s : StorageState) (sid : String) :
    (scaffoldReflection P nowMs s sid [] .deep).1.teachingDirectives = [] ∧
    (scaffoldReflection P nowMs s sid [] .deep).1.emergentPatterns.learningVelocity = 0 ∧
    (scaffoldReflection P nowMs s sid [] .deep).1.emergentPatterns.conversationalFlow = 1 := by
  refine ⟨rfl, rfl, ?_⟩
  show max 0 (1 - (0 : ℚ) / ((max (0 - 1) 1 : ℕ) : ℚ) / 10000) = 1
  norm_num

/-- Helper: indexing a mapped list at `0` is the function applied to
the head, for a nonempty list. -/
lemma getD_map_zero (f : Interaction → ℚ) (l : List Interaction) (hl : l ≠ []) :
    (l.map f).getD 0 0 = f (l.headD defaultInteraction) := by
  cases l with
  | nil => exact absurd rfl hl
  | cons a t => rfl

/-- Helper: indexing a mapped list at its last position is the function
applied to the last element, for a nonempty list. -/
lemma getD_map_last (f : Interaction → ℚ) (l : List Interaction) (hl : l ≠ []) :
    (l.map f).getD ((l.map f).length - 1) 0 = f ((l.getLast?).getD defaultInteraction) := by
  rw [List.getD_eq_getElem?_getD, List.length_map, List.getElem?_map,
    ← List.getLast?_eq_getElem?]
  cases hx : l.getLast? with
  | none =>
    cases l with
    | nil => exact absurd rfl hl
    | cons a t => simp at hx
  | some x => simp

/-- C5 counterexample: on the two-interaction batch whose cognitive
loads are `0.9` and the explicit value `0`, the code's learning
velocity is `max(0, 0.9 - 0.5) = 0.4` (the `||` fallback replaces the
falsy `0` by `0.5`), not the claimed `max(0, 0.9 - 0) = 0.9` obtained
with `??` semantics. -/
theorem claim_C5_counterexample :
    2 ≤ batch5.length ∧
    (scaffoldReflection dummyPrims 0 st0 "s" batch5 .deep).1.emergentPatterns.learningVelocity =
      2 / 5 ∧
    specLearningVelocity batch5 = 9 / 10 ∧
    (scaffoldReflection dummyPrims 0 st0 "s" batch5 .deep).1.emergentPatterns.learningVelocity ≠
      specLearningVelocity batch5 := by
  have h1 : (scaffoldReflection dummyPrims 0 st0 "s" batch5
      .deep).1.emergentPatterns.learningVelocity = 2 / 5 := by
    show max 0 (jsOrNum (some (9 / 10)) 0.5 - jsOrNum (some 0) 0.5) = 2 / 5
    rw [show jsOrNum (some (9 / 10)) 0.5 = 9 / 10 by norm_num [jsOrNum],
      show jsOrNum (some 0) 0.5 = 0.5 by norm_num [jsOrNum],
      max_eq_right (by norm_num)]
    norm_num
  have h2 : specLearningVelocity batch5 = 9 / 10 := by
    rw [specLearningVelocity]
    simp only [batch5, specNullishLoad, List.length_cons, List.length_nil, List.headD_cons,
      List.getLast?_cons_cons, List.getLast?_singleton, Option.getD_some]
    rw [if_neg (by norm_num), max_eq_right (by norm_num)]
    norm_num
  exact ⟨by decide, h1, h2, by rw [h1, h2]; norm_num⟩

/-- C5 as amended: for every interaction batch with at least 2
interactions, `emergentPatterns.learningVelocity` equals
`max(0, load(first) - load(last))` where `load` substitutes `0.5` both
when `cognitiveLoad` is absent and when it is the falsy value `0`
(JavaScript `cognitiveLoad || 0.5`, not `?? 0.5`). -/
theorem claim_C5_amended (P : MathPrims) (nowMs : ℤ) (s : StorageState) (sid : String)
    (interactions : List Interaction) (depth : ReflectionDepth)
    (h : 2 ≤ interactions.length) :
    (scaffoldReflection P nowMs s sid interactions depth).1.emergentPatterns.learningVelocity =
      max 0 (jsOrNum (interactions.headD defaultInteraction).cognitiveLoad 0.5 -
        jsOrNum ((interactions.getLast?).getD defaultInteraction).cognitiveLoad 0.5) := by
  have hne : interactions ≠ [] := by
    intro e
    rw [e] at h
    simp at h
  have hgt : (interactions.map (fun int => jsOrNum int.cognitiveLoad 0.5)).length > 1 := by
    rw [List.length_map]
    omega
  show (if (interactions.map (fun int => jsOrNum int.cognitiveLoad 0.5)).length > 1 then
      max 0 ((interactions.map (fun int => jsOrNum int.cognitiveLoad 0.5)).getD 0 0 -
        (interactions.map (fun int => jsOrNum int.cognitiveLoad 0.5)).getD
          ((interactions.map (fun int => jsOrNum int.cognitiveLoad 0.5)).length - 1) 0)
    else 0) = _
  rw [if_pos hgt, getD_map_zero _ _ hne, getD_map_last _ _ hne]

/-- Witness for the amended C5 at the concrete batch `batch5`. -/
theorem claim_C5_amended_witness :
    2 ≤ batch5.length ∧
    (scaffoldReflection dummyPrims 0 st0 "s" batch5 .deep).1.emergentPatterns.learningVelocity =
      max 0 (jsOrNum (batch5.headD defaultInteraction).cognitiveLoad 0.5 -
        jsOrNum ((batch5.getLast?).getD defaultInteraction).cognitiveLoad 0.5) :=
  ⟨by decide, claim_C5_amended dummyPrims 0 st0 "s" batch5 .deep (by decide)⟩

/-- Helper: the cleaned partial record of any `updateMetrics` call is
never empty, since the derived `phaseAlignment` field is always
present. -/
lemma objectValues_cleaned_ne_nil (P : MathPrims) (m : MetricUpdate)
    (ctx : Option UpdateContext) : objectValues (cleanedMetrics P m ctx) ≠ [] := by
  have hmem : calculatePhaseAlignment P (sessionDuration ctx) ∈
      objectValues (cleanedMetrics P m ctx) := by
    rw [objectValues]
    exact List.mem_filterMap.mpr ⟨.phaseAlignment, by simp [metricKeys], rfl⟩
  exact List.ne_nil_of_mem hmem

/-- C3: every successful `updateMetrics` call returns a
`coherenceScore` equal to the arithmetic mean of the values present in
that update's cleaned partial metrics record (caller-supplied fields
merged with the derived fields, `undefined`-valued fields dropped) —
and, as the concrete second part shows, that is in general not the mean
of the session's full 21-field metrics record. -/
theorem claim_C3 :
    (∀ (P : MathPrims) (now : String) (s : StorageState) (sid : String)
        (m : MetricUpdate) (ctx : Option UpdateContext) (sess : LimnusSession),
      s.sessions sid = some sess →
      ∃ (r : MetricsResult) (s1 : StorageState),
        updateMetrics P now s sid m ctx = (.ok r, s1) ∧
        r.coherenceScore = specArithMean (objectValues (cleanedMetrics P m ctx))) ∧
    (∃ (r : MetricsResult) (s1 : StorageState) (sess1 : LimnusSession),
      updateMetrics dummyPrims "t1" stW "sid" (fun _ => none) none = (.ok r, s1) ∧
      s1.sessions "sid" = some sess1 ∧
      r.coherenceScore ≠ specArithMean (metricKeys.map sess1.metrics)) := by
  constructor
  · intro P now s sid m ctx sess h
    refine ⟨{ success := true, updatedMetrics := cleanedMetrics P m ctx, timestamp := now,
              coherenceScore := calculateOverallCoherence (objectValues (cleanedMetrics P m ctx)) },
            storeSession s { sess with
              metrics := fun k => ((cleanedMetrics P m ctx) k).getD (sess.metrics k),
              lastActivity := now }, ?_, ?_⟩
    · simp only [updateMetrics, h]
    · rw [calculateOverallCoherence, specArithMean,
        if_neg (by simpa [List.length_eq_zero] using objectValues_cleaned_ne_nil P m ctx)]
  · refine ⟨_, _, _, rfl, rfl, ?_⟩
    norm_num [calculateOverallCoherence, objectValues, metricKeys, cleanedMetrics,
      calculatePhaseAlignment, calculateSpiralResonance, calculateConsciousnessDepth,
      sessionDuration, dummyPrims, goldenRatio, specArithMean, initialMetrics, sessW,
      max_def, min_def, List.filterMap_cons]

/-- Witness for the universally quantified part of C3 at a concrete
state holding one session with the default metrics. -/
theorem claim_C3_witness :
    stW.sessions "sid" = some sessW ∧
    ∃ (r : MetricsResult) (s1 : StorageState),
      updateMetrics dummyPrims "t1" stW "sid" (fun _ => none) none = (.ok r, s1) ∧
      r.coherenceScore =
        specArithMean (objectValues (cleanedMetrics dummyPrims (fun _ => none) none)) :=
  ⟨rfl, claim_C3.1 dummyPrims "t1" stW "sid" (fun _ => none) none sessW rfl⟩

/-- C7: a successful `updateMetrics` call changes only the session's
`metrics` and `lastActivity` fields; `id`, `userId`, `phase`,
`consentTimestamp`, `memoryChain`, `coherenceTarget`, `spiralDepth` and
`teachingDirectives` are unchanged, metrics fields not present in the
cleaned update retain their prior values, and no other session, the
current-session pointer or the directive store is touched.  (`hid`
records the store's keying discipline: a session found under `sid`
carries `id = sid`.) -/
theorem claim_C7 (P : MathPrims) (now : String) (s : StorageState) (sid : String)
    (m : MetricUpdate) (ctx : Option UpdateContext) (sess : LimnusSession)
    (h : s.sessions sid = some sess) (hid : sess.id = sid) :
    ∃ (r : MetricsResult) (s1 : StorageState) (sess1 : LimnusSession),
      updateMetrics P now s sid m ctx = (.ok r, s1) ∧
      s1.sessions sid = some sess1 ∧
      sess1.id = sess.id ∧
      sess1.userId = sess.userId ∧
      sess1.phase = sess.phase ∧
      sess1.consentTimestamp = sess.consentTimestamp ∧
      sess1.memoryChain = sess.memoryChain ∧
      sess1.coherenceTarget = sess.coherenceTarget ∧
      sess1.spiralDepth = sess.spiralDepth ∧
      sess1.teachingDirectives = sess.teachingDirectives ∧
      sess1.lastActivity = now ∧
      (∀ k, cleanedMetrics P m ctx k = none → sess1.metrics k = sess.metrics k) ∧
      (∀ k, k ≠ sid → s1.sessions k = s.sessions k) ∧
      s1.currentSession = s.currentSession ∧
      s1.teachingDirectives = s.teachingDirectives := by
  refine ⟨{ success := true, updatedMetrics := cleanedMetrics P m ctx, timestamp := now,
            coherenceScore := calculateOverallCoherence (objectValues (cleanedMetrics P m ctx)) },
          storeSession s { sess with
            metrics := fun k => ((cleanedMetrics P m ctx) k).getD (sess.metrics k),
            lastActivity := now },
          { sess with
            metrics := fun k => ((cleanedMetrics P m ctx) k).getD (sess.metrics k),
            lastActivity := now },
          ?_, ?_, rfl, rfl, rfl, rfl, rfl, rfl, rfl, rfl, rfl, ?_, ?_, rfl, rfl⟩
  · simp only [updateMetrics, h]
  · simp [storeSession, hid]
  · intro k hk
    show ((cleanedMetrics P m ctx) k).getD (sess.metrics k) = sess.metrics k
    rw [hk]
    rfl
  · intro k hk
    simp [storeSession, hid, hk]

/-- Witness for C7 at a concrete state holding one session. -/
theorem claim_C7_witness :
    stW.sessions "sid" = some sessW ∧ sessW.id = "sid" ∧
    ∃ (r : MetricsResult) (s1 : StorageState) (sess1 : LimnusSession),
      updateMetrics dummyPrims "t1" stW "sid" (fun _ => none) none = (.ok r, s1) ∧
      s1.sessions "sid" = some sess1 ∧
      sess1.id = sessW.id ∧
      sess1.userId = sessW.userId ∧
      sess1.phase = sessW.phase ∧
      sess1.consentTimestamp = sessW.consentTimestamp ∧
      sess1.memoryChain = sessW.memoryChain ∧
      sess1.coherenceTarget = sessW.coherenceTarget ∧
      sess1.spiralDepth = sessW.spiralDepth ∧
      sess1.teachingDirectives = sessW.teachingDirectives ∧
      sess1.lastActivity = "t1" ∧
      (∀ k, cleanedMetrics dummyPrims (fun _ => none) none k = none →
        sess1.metrics k = sessW.metrics k) ∧
      (∀ k, k ≠ "sid" → s1.sessions k = stW.sessions k) ∧
      s1.currentSession = stW.currentSession ∧
      s1.teachingDirectives = stW.teachingDirectives :=
  ⟨rfl, rfl, claim_C7 dummyPrims "t1" stW "sid" (fun _ => none) none sessW rfl rfl⟩

/-- Helper: a `flatMap` over `range n` whose step is empty everywhere
except at `i`, where it is the singleton `[x]`, collapses to `[x]`. -/
lemma flatMap_range_eq_single {α : Type} (f : ℕ → List α) (n i : ℕ) (hi : i < n) (x : α)
    (hfi : f i = [x]) (hother : ∀ j, j < n → j ≠ i → f j = []) :
    (List.range n).flatMap f = [x] := by
  induction n with
  | zero => omega
  | succ n ih =>
    rw [List.range_succ, List.flatMap_append]
    rcases Nat.lt_succ_iff_lt_or_eq.mp hi with hlt | heq
    · rw [ih hlt (fun j hj hne => hother j (Nat.lt_succ_of_lt hj) hne),
        List.flatMap_cons, List.flatMap_nil,
        hother n (Nat.lt_succ_self n) (by omega)]
      simp
    · subst heq
      have hz : (List.range i).flatMap f = [] :=
        List.flatMap_eq_nil_iff.mpr
          (fun j hj => hother j (Nat.lt_succ_of_lt (List.mem_range.mp hj))
            (Nat.ne_of_lt (List.mem_range.mp hj)))
      rw [hz, List.flatMap_cons, List.flatMap_nil, hfi]
      simp

/-- Directive emitted by the `surface` branch of the extraction loop at
index `i` (taken verbatim from the source's surface-case push). -/
def surfaceDirective (P : MathPrims) (nowMs : ℤ) (interactions : List Interaction)
    (i : ℕ) : TeachingDirective :=
  { id := "surface_" ++ toString i ++ "_" ++ toString nowMs
    type := .pattern
    content := "User seeks clarification: \"" ++
      jsSlice (interactions.getD i defaultInteraction).userInput 100 ++ "...\""
    confidence := 0.7
    sourceInteractions := [toString i]
    emergentProperties := { resonance := 0.6, coherence := 0.8, applicability := 0.9 }
    goldenRatioAlignment := |P.sin ((i : ℚ) * goldenRatio P)| }

/-- C8: on a batch in which exactly one interaction's `userInput`
contains `"?"` (at index `i`), `scaffoldReflection` at `surface` depth
returns exactly one teaching directive, of type `pattern`, with
confidence `0.70`, emergent properties
`{resonance: 0.6, coherence: 0.8, applicability: 0.9}`, and
`sourceInteractions` holding exactly that index. -/
theorem claim_C8 (P : MathPrims) (nowMs : ℤ) (s : StorageState) (sid : String)
    (interactions : List Interaction) (i : ℕ) (hi : i < interactions.length)
    (hq : (interactions.getD i defaultInteraction).userInput.toList.contains '?' = true)
    (hother : ∀ j, j < interactions.length → j ≠ i →
      (interactions.getD j defaultInteraction).userInput.toList.contains '?' = false) :
    ∃ d : TeachingDirective,
      (scaffoldReflection P nowMs s sid interactions .surface).1.teachingDirectives = [d] ∧
      d.type = .pattern ∧ d.confidence = 0.7 ∧
      d.emergentProperties = { resonance := 0.6, coherence := 0.8, applicability := 0.9 } ∧
      d.sourceInteractions = [toString i] := by
  have hstep : directiveStep P nowMs interactions .surface i =
      [surfaceDirective P nowMs interactions i] := by
    simp only [directiveStep, hq, if_true, surfaceDirective]
  have hzero : ∀ j, j < interactions.length → j ≠ i →
      directiveStep P nowMs interactions .surface j = [] := by
    intro j hj hne
    simp only [directiveStep, hother j hj hne]
    simp
  have hE : extractTeachingDirectives P nowMs interactions .surface =
      [surfaceDirective P nowMs interactions i] := by
    rw [extractTeachingDirectives,
      flatMap_range_eq_single (directiveStep P nowMs interactions .surface)
        interactions.length i hi _ hstep hzero]
    rfl
  exact ⟨surfaceDirective P nowMs interactions i, hE, rfl, rfl, rfl, rfl⟩

/-- Witness for C8 at the concrete two-interaction batch whose second
interaction asks a question. -/
theorem claim_C8_witness :
    1 < batch8.length ∧
    (batch8.getD 1 defaultInteraction).userInput.toList.contains '?' = true ∧
    (∀ j, j < batch8.length → j ≠ 1 →
      (batch8.getD j defaultInteraction).userInput.toList.contains '?' = false) ∧
    ∃ d : TeachingDirective,
      (scaffoldReflection dummyPrims 7 st0 "s" batch8 .surface).1.teachingDirectives = [d] ∧
      d.type = .pattern ∧ d.confidence = 0.7 ∧
      d.emergentProperties = { resonance := 0.6, coherence := 0.8, applicability := 0.9 } ∧
      d.sourceInteractions = [toString 1] :=
  ⟨by decide, by decide, by decide,
   claim_C8 dummyPrims 7 st0 "s" batch8 1 (by decide) (by decide) (by decide)⟩

end Limnus
